import Mathlib

/-!
Shallow embedding of the live-update dispatch subsystem of `src/main.py`:
the `subscriptions` dict, the WebSocket endpoint's register / snapshot /
cleanup paths, the notification fan-out (`handle_device_data_update`), and
the store queries (`fetch_device_data`, `fetch_latest_device_data`).
-/

namespace Spark

/-- Observer connection handles; identity is reference equality, modelled by `Nat`. -/
abbrev Conn := Nat

/-- Python errors the registry code can raise. -/
inductive PyErr where
  | keyError
  | valueError
deriving DecidableEq

/-- The `subscriptions` dict (line 10): device id -> list of connections, modelled as
an association list in dict insertion order. -/
abbrev Registry := List (String × List Conn)

/-- `subscriptions[d]` as an optional lookup (first matching key). -/
def lookupSubs : Registry → String → Option (List Conn)
  | [], _ => none
  | p :: rest, d => if p.1 = d then some p.2 else lookupSubs rest d

/-- `device_id in subscriptions` (Python key test). -/
def hasDevice (r : Registry) (d : String) : Bool :=
  (lookupSubs r d).isSome

/-- Replace the value stored under key `d` (no change when the key is absent). -/
def setSubs (r : Registry) (d : String) (v : List Conn) : Registry :=
  r.map (fun p => if p.1 = d then (d, v) else p)

/-- `del subscriptions[d]`. -/
def delDevice (r : Registry) (d : String) : Registry :=
  r.filter (fun p => p.1 != d)

/-- Lines 64-68 of `main.py`: create the entry if absent, then append the connection. -/
def registerConn (r : Registry) (d : String) (c : Conn) : Registry :=
  match lookupSubs r d with
  | none => r ++ [(d, [c])]
  | some l => setSubs r d (l ++ [c])

/-- Python `list.remove`: delete the first occurrence, `ValueError` if absent. -/
def removeFirst : List Conn → Conn → Except PyErr (List Conn)
  | [], _ => .error .valueError
  | x :: xs, c => if x = c then .ok xs else (removeFirst xs c).map (fun ys => x :: ys)

/-- Which exception terminated the endpoint's receive loop. -/
inductive ExitReason where
  | disconnected
  | protocolError
deriving DecidableEq

/-- Lines 88-95: the endpoint's exception handlers.  On `WebSocketDisconnect` the
connection is removed from `subscriptions[d]` (Python raises `KeyError` /
`ValueError` when key or member is absent) and an emptied entry is deleted; on
`WebSocketException` the socket is closed and the registry is left untouched. -/
def websocket_cleanup (reason : ExitReason) (r : Registry) (d : String) (c : Conn) :
    Except PyErr Registry :=
  match reason with
  | .disconnected =>
    match lookupSubs r d with
    | none => .error .keyError
    | some l =>
      match removeFirst l c with
      | .error e => .error e
      | .ok l2 => if l2 = [] then .ok (delDevice r d) else .ok (setSubs r d l2)
  | .protocolError => .ok r

/-- A Python value in a row dict: internal datetime, text, or number. -/
inductive PyVal where
  | dt (t : Nat)
  | txt (s : String)
  | num (x : Int)
deriving DecidableEq

/-- A row dict / wire object: ordered key-value pairs. -/
abbrev Entry := List (String × PyVal)

/-- A `device_data` row: device id, recorded timestamp (totally ordered), sensor fields. -/
structure Reading where
  device_id : String
  recorded_at : Nat
  fields : Entry
deriving DecidableEq

/-- `dict(row)`: the row as a Python dict, the timestamp still a datetime object. -/
def Reading.toEntry (r : Reading) : Entry :=
  ("device_id", .txt r.device_id) :: ("recorded_at", .dt r.recorded_at) :: r.fields

/-- Model of `datetime.isoformat`: a fixed text rendering of the timestamp. -/
def isoformat (t : Nat) : String :=
  toString t

/-- Lines 76-79 / 106-109: convert a datetime value to its ISO text, keep the rest. -/
def convertVal : PyVal → PyVal
  | .dt t => .txt (isoformat t)
  | v => v

/-- The in-place conversion loop over one entry. -/
def convertEntry (e : Entry) : Entry :=
  e.map (fun kv => (kv.1, convertVal kv.2))

/-- The descending `recorded_at` order used by `ORDER BY recorded_at DESC`. -/
def tsGE (a b : Reading) : Prop :=
  b.recorded_at ≤ a.recorded_at

instance : DecidableRel tsGE :=
  fun a b => Nat.decLe b.recorded_at a.recorded_at

instance : IsTotal Reading tsGE :=
  ⟨fun a b => Nat.le_total b.recorded_at a.recorded_at⟩

instance : IsTrans Reading tsGE :=
  ⟨fun _ _ _ hab hbc => Nat.le_trans hbc hab⟩

/-- Rows of the `device_data` table belonging to one device, in table order. -/
def deviceRows (d : String) (s : List Reading) : List Reading :=
  s.filter (fun r => r.device_id == d)

/-- `ORDER BY recorded_at DESC` as a stable sort. -/
def sortDesc (l : List Reading) : List Reading :=
  List.insertionSort tsGE l

/-- Lines 117-123: the connect-time snapshot query, newest first, `LIMIT 800`. -/
def fetch_device_data (d : String) (s : List Reading) : List Reading :=
  (sortDesc (deviceRows d s)).take 800

/-- Lines 125-132: the latest-row query (`fetchrow` with `LIMIT 1`), `[dict(row)]` or `[]`. -/
def fetch_latest_device_data (d : String) (s : List Reading) : List Reading :=
  match (sortDesc (deviceRows d s)).head? with
  | some r => [r]
  | none => []

/-- The wire message `{"device_id": ..., "data": [...]}` sent by both send sites. -/
structure Msg where
  device_id : String
  data : List Entry
deriving DecidableEq

/-- Serialize rows (datetime fields converted) and build the wire message. -/
def mkMsg (d : String) (rows : List Reading) : Msg :=
  { device_id := d, data := rows.map (fun r => convertEntry r.toEntry) }

/-- Lines 72-82: the snapshot message sent on connect. -/
def snapshotMessage (d : String) (s : List Reading) : Msg :=
  mkMsg d (fetch_device_data d s)

/-- Lines 112-113: send the message to each subscriber in list order; the first failing
send raises out of the loop, so later subscribers are not attempted.  Returns the
successful deliveries and the connection whose send raised, if any. -/
def sendLoop (subs : List Conn) (fails : Conn → Bool) (m : Msg) :
    List (Conn × Msg) × Option Conn :=
  match subs with
  | [] => ([], none)
  | c :: rest =>
    if fails c then ([], some c)
    else
      let p := sendLoop rest fails m
      ((c, m) :: p.1, p.2)

/-- Observable outcome of one notification callback. -/
structure OnChangeResult where
  queried : Bool
  delivered : List (Conn × Msg)
  failedAt : Option Conn
  registry : Registry
deriving DecidableEq

/-- Lines 99-113 (`handle_device_data_update`): if the device has an entry the latest
row is queried, serialized once, and sent to every subscriber in order; the
registry is never mutated here, and a failing send aborts the loop. -/
def handle_device_data_update (r : Registry) (s : List Reading) (fails : Conn → Bool)
    (d : String) : OnChangeResult :=
  match lookupSubs r d with
  | none => { queried := false, delivered := [], failedAt := none, registry := r }
  | some subs =>
    let m := mkMsg d (fetch_latest_device_data d s)
    let p := sendLoop subs fails m
    { queried := true, delivered := p.1, failedAt := p.2, registry := r }

/-- Registry well-formedness: dict keys are unique and no entry holds an empty list. -/
def WF (r : Registry) : Prop :=
  (r.map Prod.fst).Nodup ∧ ∀ p ∈ r, p.2 ≠ []

/-- Where the endpoint coroutine of one connection stands between its `await`
suspension points: registered but still fetching the snapshot (lines 64-73),
snapshot fetched but `send_json` not yet completed (lines 73-82), or inside the
receive loop (lines 85-86). -/
inductive Phase where
  | fetching
  | sending (snap : List Reading)
  | live
deriving DecidableEq

/-- Global state of the asyncio process: the `subscriptions` dict, the
`device_data` table, every connection's delivered messages (oldest first), and
every connection's endpoint coroutine phase. -/
structure Sys where
  registry : Registry
  store : List Reading
  inbox : Conn → List Msg
  phase : Conn → Option (String × Phase)

/-- Lines 62-68 run without an intervening `await`: accept, create the entry if
absent, append the connection; the coroutine then suspends on the db fetch. -/
def stepRegister (σ : Sys) (c : Conn) (d : String) : Sys :=
  { σ with registry := registerConn σ.registry d c,
           phase := Function.update σ.phase c (some (d, Phase.fetching)) }

/-- Lines 72-79: the snapshot query completes against the current store; the
coroutine then suspends on `await websocket.send_json` (line 82). -/
def stepFetch (σ : Sys) (c : Conn) (d : String) : Sys :=
  { σ with phase :=
      Function.update σ.phase c (some (d, Phase.sending (fetch_device_data d σ.store))) }

/-- Line 82 completes: the snapshot message reaches the connection. -/
def stepSendSnap (σ : Sys) (c : Conn) (d : String) (snap : List Reading) : Sys :=
  { σ with inbox := Function.update σ.inbox c (σ.inbox c ++ [mkMsg d snap]),
           phase := Function.update σ.phase c (some (d, Phase.live)) }

/-- Append each delivered message to its connection's inbox, in delivery order. -/
def applyDeliveries (inbox : Conn → List Msg) (del : List (Conn × Msg)) : Conn → List Msg :=
  del.foldl (fun ib p => Function.update ib p.1 (ib p.1 ++ [p.2])) inbox

/-- A `device_data_update` notification arrives and the listener callback
`handle_device_data_update` runs (here with every send succeeding). -/
def stepNotify (σ : Sys) (d : String) : Sys :=
  let del := (handle_device_data_update σ.registry σ.store (fun _ => false) d).delivered
  { σ with inbox := applyDeliveries σ.inbox del }

/-- The write path commits one new row (the table is append-only). -/
def stepInsert (σ : Sys) (x : Reading) : Sys :=
  { σ with store := σ.store ++ [x] }

/-- One scheduler step of the asyncio process.  The listener callback runs as its
own task, so a notification may be handled whenever an endpoint coroutine is
suspended at an `await` — in particular between registration and the snapshot send. -/
inductive Step : Sys → Sys → Prop where
  | register (σ : Sys) (c : Conn) (d : String) :
      σ.phase c = none → Step σ (stepRegister σ c d)
  | fetch (σ : Sys) (c : Conn) (d : String) :
      σ.phase c = some (d, Phase.fetching) → Step σ (stepFetch σ c d)
  | sendSnap (σ : Sys) (c : Conn) (d : String) (snap : List Reading) :
      σ.phase c = some (d, Phase.sending snap) → Step σ (stepSendSnap σ c d snap)
  | notify (σ : Sys) (d : String) : Step σ (stepNotify σ d)
  | insert (σ : Sys) (x : Reading) : Step σ (stepInsert σ x)

/-- Executions the scheduler can produce. -/
def Reaches (a b : Sys) : Prop :=
  Relation.ReflTransGen Step a b

/-- Python's index-based `for` iteration over the LIVE list `subscriptions[d]`
(lines 112-113): when a connection's cleanup runs while the loop is suspended in
`await send_json` (because that connection left), it removes the element from the
very list being iterated, and the iterator's index is not adjusted.  `fuel` bounds
the recursion; the initial list length suffices since the index grows and the list
never does.  Returns the connections actually visited by the loop. -/
def liveListFanout (fuel : Nat) (l : List Conn) (leaves : Conn → Bool) (i : Nat) :
    List Conn :=
  match fuel with
  | 0 => []
  | fuel + 1 =>
    match l[i]? with
    | none => []
    | some c =>
      c :: liveListFanout fuel (if leaves c then l.erase c else l) leaves (i + 1)

/-- Two rows for device "d": timestamps 1 and 2. -/
def c7r0 : Reading := ⟨"d", 1, []⟩

/-- The newer row for device "d". -/
def c7r1 : Reading := ⟨"d", 2, []⟩

/-- Initial state: nobody subscribed, two rows already stored for "d". -/
def c7init : Sys :=
  { registry := [], store := [c7r0, c7r1], inbox := fun _ => [], phase := fun _ => none }

/-- Connection 0 reaches device "d"'s endpoint: accepted and registered. -/
def c7s1 : Sys := stepRegister c7init 0 "d"

/-- While the endpoint awaits its db connection, a notification for "d" is handled. -/
def c7s2 : Sys := stepNotify c7s1 "d"

/-- The snapshot query then completes. -/
def c7s3 : Sys := stepFetch c7s2 0 "d"

/-- The snapshot send completes. -/
def c7final : Sys := stepSendSnap c7s3 0 "d" (fetch_device_data "d" [c7r0, c7r1])

/-! Helper lemmas about the registry operations. -/

theorem lookupSubs_none_iff (r : Registry) (d : String) :
    lookupSubs r d = none ↔ d ∉ r.map Prod.fst := by
  induction r with
  | nil => simp [lookupSubs]
  | cons p rest ih =>
    by_cases h : p.1 = d
    · simp [lookupSubs, h]
    · simp only [lookupSubs, h, if_false, List.map_cons, List.mem_cons, ih]
      constructor
      · rintro hn (he | hm)
        · exact h he.symm
        · exact hn hm
      · intro hn hm
        exact hn (Or.inr hm)

theorem lookupSubs_append_of_none (r r2 : Registry) (d : String)
    (h : lookupSubs r d = none) :
    lookupSubs (r ++ r2) d = lookupSubs r2 d := by
  induction r with
  | nil => simp
  | cons p rest ih =>
    by_cases hp : p.1 = d
    · simp [lookupSubs, hp] at h
    · simp only [lookupSubs, hp, if_false] at h
      simpa [lookupSubs, hp] using ih h

theorem lookupSubs_setSubs (r : Registry) (d : String) (v : List Conn) :
    lookupSubs (setSubs r d v) d = (lookupSubs r d).map (fun _ => v) := by
  induction r with
  | nil => simp [setSubs, lookupSubs]
  | cons p rest ih =>
    by_cases hp : p.1 = d
    · simp [setSubs, lookupSubs, hp]
    · simpa [setSubs, lookupSubs, hp] using ih

theorem lookupSubs_registerConn (r : Registry) (d : String) (c : Conn) :
    lookupSubs (registerConn r d c) d = some ((lookupSubs r d).getD [] ++ [c]) := by
  cases h : lookupSubs r d with
  | none =>
    simp only [registerConn, h, lookupSubs_append_of_none r _ d h]
    simp [lookupSubs]
  | some l =>
    simp [registerConn, h, lookupSubs_setSubs]

theorem map_fst_setSubs (r : Registry) (d : String) (v : List Conn) :
    (setSubs r d v).map Prod.fst = r.map Prod.fst := by
  induction r with
  | nil => rfl
  | cons p rest ih =>
    by_cases hp : p.1 = d
    · simpa [setSubs, hp] using ih
    · simpa [setSubs, hp] using ih

theorem mem_setSubs (r : Registry) (d : String) (v : List Conn) (p : String × List Conn)
    (h : p ∈ setSubs r d v) : p.2 = v ∨ p ∈ r := by
  rcases List.mem_map.mp h with ⟨q, hq, he⟩
  by_cases hqd : q.1 = d
  · left
    rw [← he]
    simp [hqd]
  · right
    rw [← he]
    simpa [hqd] using hq

theorem WF_setSubs (r : Registry) (d : String) (v : List Conn) (hw : WF r) (hv : v ≠ []) :
    WF (setSubs r d v) := by
  refine ⟨?_, ?_⟩
  · rw [map_fst_setSubs]
    exact hw.1
  · intro p hp
    rcases mem_setSubs r d v p hp with h | h
    · rw [h]; exact hv
    · exact hw.2 p h

theorem WF_delDevice (r : Registry) (d : String) (hw : WF r) : WF (delDevice r d) := by
  refine ⟨hw.1.sublist ((List.filter_sublist r).map Prod.fst), ?_⟩
  intro p hp
  exact hw.2 p (List.mem_of_mem_filter hp)

theorem WF_registerConn (r : Registry) (d : String) (c : Conn) (hw : WF r) :
    WF (registerConn r d c) := by
  cases h : lookupSubs r d with
  | none =>
    have hd : d ∉ r.map Prod.fst := (lookupSubs_none_iff r d).mp h
    simp only [registerConn, h]
    refine ⟨?_, ?_⟩
    · rw [List.map_append]
      refine hw.1.append (List.nodup_singleton d) ?_
      intro a ha ha2
      simp at ha2
      exact hd (ha2 ▸ ha)
    · intro p hp
      rcases List.mem_append.mp hp with h1 | h1
      · exact hw.2 p h1
      · simp only [List.mem_singleton] at h1
        rw [h1]
        simp
  | some l =>
    simp only [registerConn, h]
    exact WF_setSubs r d (l ++ [c]) hw (by simp)

theorem removeFirst_not_mem (l : List Conn) (c : Conn) (h : c ∉ l) :
    removeFirst l c = .error .valueError := by
  induction l with
  | nil => rfl
  | cons x xs ih =>
    have h1 : ¬ x = c := fun he => h (List.mem_cons.mpr (Or.inl he.symm))
    have h2 : c ∉ xs := fun hc => h (List.mem_cons.mpr (Or.inr hc))
    simp [removeFirst, h1, ih h2, Except.map]

theorem removeFirst_isOk_iff (l : List Conn) (c : Conn) :
    (∃ l2, removeFirst l c = .ok l2) ↔ c ∈ l := by
  induction l with
  | nil => simp [removeFirst]
  | cons x xs ih =>
    by_cases hx : x = c
    · subst hx
      exact ⟨fun _ => List.mem_cons_self x xs, fun _ => ⟨xs, by simp [removeFirst]⟩⟩
    · constructor
      · rintro ⟨l2, h2⟩
        simp only [removeFirst, hx, if_false] at h2
        cases hr : removeFirst xs c with
        | error e => rw [hr] at h2; exact absurd h2 (by simp [Except.map])
        | ok ys => exact List.mem_cons_of_mem x (ih.mp ⟨ys, hr⟩)
      · intro hm
        rcases List.mem_cons.mp hm with he | hm2
        · exact absurd he.symm hx
        · rcases ih.mpr hm2 with ⟨ys, hys⟩
          refine ⟨x :: ys, ?_⟩
          simp [removeFirst, hx, hys, Except.map]

theorem WF_cleanup_disconnected (r : Registry) (d : String) (c : Conn) (r2 : Registry)
    (hw : WF r) (h : websocket_cleanup .disconnected r d c = .ok r2) : WF r2 := by
  unfold websocket_cleanup at h
  split at h
  · split at h
    · exact absurd h (by simp)
    · split at h
      · exact absurd h (by simp)
      · split at h
        · cases h
          exact WF_delDevice r d hw
        · cases h
          rename_i l hl l2 hr hn
          exact WF_setSubs r d l2 hw hn
  · rename_i heq
    cases heq

/-! Helper lemmas about the fan-out loop and serialization. -/

theorem sendLoop_eq (subs : List Conn) (fails : Conn → Bool) (m : Msg) :
    sendLoop subs fails m =
      ((subs.takeWhile (fun c => !fails c)).map (fun c => (c, m)), subs.find? fails) := by
  induction subs with
  | nil => rfl
  | cons c rest ih =>
    cases hc : fails c with
    | true => simp [sendLoop, hc, List.takeWhile_cons, List.find?_cons]
    | false => simp [sendLoop, hc, List.takeWhile_cons, List.find?_cons, ih]

theorem sendLoop_all_ok (subs : List Conn) (m : Msg) :
    sendLoop subs (fun _ => false) m = (subs.map (fun c => (c, m)), none) := by
  induction subs with
  | nil => rfl
  | cons c rest ih => simp [sendLoop, ih]

theorem convertEntry_no_dt (e : Entry) (kv : String × PyVal) (h : kv ∈ convertEntry e)
    (t : Nat) : kv.2 ≠ PyVal.dt t := by
  rcases List.mem_map.mp h with ⟨q, _, he⟩
  rw [← he]
  cases hq : q.2 <;> simp [convertVal]

theorem sortDesc_head_ge (l : List Reading) (y : Reading)
    (h : (sortDesc l).head? = some y) :
    ∀ x ∈ l, x.recorded_at ≤ y.recorded_at := by
  intro x hx
  have hs : List.Sorted tsGE (sortDesc l) := List.sorted_insertionSort tsGE l
  have hm : x ∈ sortDesc l := (List.mem_insertionSort tsGE).mpr hx
  cases e : sortDesc l with
  | nil => rw [e] at h; exact absurd h (by simp)
  | cons z zs =>
    rw [e] at h hm hs
    have hz : z = y := by simpa using h
    rcases List.mem_cons.mp hm with h1 | h1
    · rw [h1, hz]
    · have hr : tsGE z x := List.rel_of_sorted_cons hs x h1
      rw [← hz]
      exact hr

theorem liveListFanout_no_leave (fuel : Nat) :
    ∀ (l : List Conn) (i : Nat), l.length ≤ i + fuel →
      liveListFanout fuel l (fun _ => false) i = l.drop i := by
  induction fuel with
  | zero =>
    intro l i h
    rw [Nat.add_zero] at h
    simp [liveListFanout, List.drop_eq_nil_of_le h]
  | succ fuel ih =>
    intro l i h
    cases hg : l[i]? with
    | none =>
      have hlen : l.length ≤ i := by
        by_contra hlt
        push_neg at hlt
        rw [List.getElem?_eq_getElem hlt] at hg
        exact absurd hg (by simp)
      simp [liveListFanout, hg, List.drop_eq_nil_of_le hlen]
    | some c =>
      obtain ⟨hlt, hc⟩ := List.getElem?_eq_some.mp hg
      have h2 : l.length ≤ (i + 1) + fuel := by omega
      simp [liveListFanout, hg, ih l (i + 1) h2, List.drop_eq_getElem_cons hlt, hc]

theorem websocket_cleanup_disc_none (r : Registry) (d : String) (c : Conn)
    (hl : lookupSubs r d = none) :
    websocket_cleanup .disconnected r d c = .error .keyError := by
  simp [websocket_cleanup, hl]

theorem websocket_cleanup_disc_some (r : Registry) (d : String) (c : Conn) (l : List Conn)
    (hl : lookupSubs r d = some l) :
    websocket_cleanup .disconnected r d c =
      match removeFirst l c with
      | .error e => .error e
      | .ok l2 => if l2 = [] then .ok (delDevice r d) else .ok (setSubs r d l2) := by
  simp [websocket_cleanup, hl]

theorem sendLoop_msg_mem (subs : List Conn) (fails : Conn → Bool) (m : Msg)
    (p : Conn × Msg) (hp : p ∈ (sendLoop subs fails m).1) : p.2 = m := by
  rw [sendLoop_eq] at hp
  rcases List.mem_map.mp hp with ⟨c, _, hc⟩
  rw [← hc]

theorem mkMsg_no_dt (d : String) (rows : List Reading) :
    ∀ e ∈ (mkMsg d rows).data, ∀ kv ∈ e, ∀ t, kv.2 ≠ PyVal.dt t := by
  intro e he kv hkv t
  rcases List.mem_map.mp he with ⟨q, _, hq⟩
  rw [← hq] at hkv
  exact convertEntry_no_dt _ kv hkv t

/-- The interleaving exhibited against claim C7: register, then a notification is
handled, then the snapshot is fetched and sent. -/
theorem c7_trace : Reaches c7init c7final := by
  have h1 : Step c7init c7s1 := Step.register c7init 0 "d" rfl
  have h2 : Step c7s1 c7s2 := Step.notify c7s1 "d"
  have h3 : Step c7s2 c7s3 := Step.fetch c7s2 0 "d" rfl
  have h4 : Step c7s3 c7final :=
    Step.sendSnap c7s3 0 "d" (fetch_device_data "d" [c7r0, c7r1]) rfl
  exact ((((Relation.ReflTransGen.refl).tail h1).tail h2).tail h3).tail h4

/-- The latest row of a grown store is at least as recent as every snapshot row of
the earlier store. -/
theorem latest_ts_ge_snapshot (s s2 : List Reading) (d : String)
    (hsub : List.Sublist s s2) :
    ∀ y ∈ fetch_latest_device_data d s2, ∀ x ∈ fetch_device_data d s,
      x.recorded_at ≤ y.recorded_at := by
  intro y hy x hx
  have hy2 : (sortDesc (deviceRows d s2)).head? = some y := by
    unfold fetch_latest_device_data at hy
    cases e : (sortDesc (deviceRows d s2)).head? with
    | none => simp [e] at hy
    | some z =>
      simp [e] at hy
      rw [hy]
  simp only [fetch_device_data] at hx
  have hx2 : x ∈ deviceRows d s :=
    (List.mem_insertionSort tsGE).mp (List.mem_of_mem_take hx)
  have hx3 : x ∈ deviceRows d s2 := (hsub.filter _).mem hx2
  exact sortDesc_head_ge (deviceRows d s2) y hy2 x hx3

/-! Claims C1-C10, settled against the embedding. -/

/-- C1 counterexample: with subscribers [3, 4] for device "d" and connection 3's send
failing, delivery to subscriber 4 is never attempted (the raised exception aborts the
fan-out loop, which has no try/except) and connection 3 is still registered
afterwards — the failure is neither isolated nor followed by an unregistration. -/
theorem C1_counterexample :
    (handle_device_data_update [("d", [3, 4])] [⟨"d", 1, []⟩] (fun c => c == 3)
        "d").delivered = [] ∧
    (handle_device_data_update [("d", [3, 4])] [⟨"d", 1, []⟩] (fun c => c == 3)
        "d").registry = [("d", [3, 4])] :=
  ⟨by decide, by decide⟩

/-- C1 amended: a failing send aborts the fan-out loop — exactly the subscribers
strictly before the first failing one receive the message, the exception reports the
first failing connection, and the registry is left unchanged, so the failing
connection is NOT unregistered by the dispatcher. -/
theorem C1_fanout_abort (r : Registry) (s : List Reading) (fails : Conn → Bool)
    (d : String) (subs : List Conn) (h : lookupSubs r d = some subs) :
    (handle_device_data_update r s fails d).delivered =
      (subs.takeWhile (fun c => !fails c)).map
        (fun c => (c, mkMsg d (fetch_latest_device_data d s))) ∧
    (handle_device_data_update r s fails d).failedAt = subs.find? fails ∧
    (handle_device_data_update r s fails d).registry = r := by
  refine ⟨?_, ?_, ?_⟩ <;> simp [handle_device_data_update, h, sendLoop_eq]

/-- Witness for `C1_fanout_abort` at a concrete registry. -/
theorem C1_fanout_abort_witness :
    (handle_device_data_update [("d", [3, 4])] [] (fun c => c == 3) "d").delivered = [] ∧
    (handle_device_data_update [("d", [3, 4])] [] (fun c => c == 3) "d").failedAt
      = some 3 ∧
    (handle_device_data_update [("d", [3, 4])] [] (fun c => c == 3) "d").registry
      = [("d", [3, 4])] := by
  have hh := C1_fanout_abort [("d", [3, 4])] [] (fun c => c == 3) "d" [3, 4] rfl
  refine ⟨?_, ?_, hh.2.2⟩
  · rw [hh.1]; decide
  · rw [hh.2.1]; decide

/-- C2 counterexample: the protocol-error cleanup path (lines 93-95) closes the socket
but never touches `subscriptions`: connection 6 is still registered for "d" after
that cleanup completes, so not every cleanup path removes the connection. -/
theorem C2_counterexample :
    websocket_cleanup .protocolError [("d", [6])] "d" 6 = .ok [("d", [6])] ∧
    lookupSubs [("d", [6])] "d" = some [6] :=
  ⟨rfl, rfl⟩

/-- C2 amended: after a register and after the normal-close (disconnect) cleanup the
registry invariant holds — keys are unique and no empty subscriber list persists, an
emptied entry being deleted at once — but the protocol-error cleanup path returns
with the registry unchanged, so a connection leaving through it (or through a send
failure during fan-out) is not removed. -/
theorem C2_registry_invariant (r : Registry) (d : String) (c : Conn) (hw : WF r) :
    WF (registerConn r d c) ∧
    (∀ r2, websocket_cleanup .disconnected r d c = .ok r2 → WF r2) ∧
    websocket_cleanup .protocolError r d c = .ok r :=
  ⟨WF_registerConn r d c hw, fun r2 h => WF_cleanup_disconnected r d c r2 hw h, rfl⟩

/-- Witness for `C2_registry_invariant` starting from the empty registry. -/
theorem C2_registry_invariant_witness : WF (registerConn [] "d" 0) :=
  (C2_registry_invariant [] "d" 0
    ⟨List.nodup_nil, fun p hp => absurd hp (List.not_mem_nil p)⟩).1

/-- C3 counterexample: registering the same connection twice for the same device is
not idempotent — the list-based registry then holds connection 7 twice, and a single
change event is delivered to it twice. -/
theorem C3_counterexample :
    registerConn (registerConn [] "dev" 7) "dev" 7 ≠ registerConn [] "dev" 7 ∧
    (handle_device_data_update (registerConn (registerConn [] "dev" 7) "dev" 7)
        [⟨"dev", 5, []⟩] (fun _ => false) "dev").delivered.length = 2 :=
  ⟨by decide, by decide⟩

/-- C3 amended: `register` always appends — one registration appends one copy of the
connection, so registering the same connection twice leaves it in the subscriber list
twice, and fan-out then delivers one event once per copy. -/
theorem C3_register_appends (r : Registry) (d : String) (c : Conn) :
    lookupSubs (registerConn r d c) d = some ((lookupSubs r d).getD [] ++ [c]) ∧
    lookupSubs (registerConn (registerConn r d c) d c) d =
      some ((lookupSubs r d).getD [] ++ [c, c]) := by
  refine ⟨lookupSubs_registerConn r d c, ?_⟩
  rw [lookupSubs_registerConn, lookupSubs_registerConn]
  simp

/-- C4 counterexample: for a device with no registered subscribers the notification
callback returns without ever querying the store (`queried = false`), contradicting
the claim that the latest-reading query is still performed. -/
theorem C4_counterexample :
    (handle_device_data_update [] [⟨"dx", 4, []⟩] (fun _ => false) "dx").queried
      = false ∧
    (handle_device_data_update [] [⟨"dx", 4, []⟩] (fun _ => false) "dx").delivered
      = [] :=
  ⟨by decide, by decide⟩

/-- C4 amended: with no subscribers for the device, `on_change` returns immediately:
it performs NO store query, sends nothing, and raises no error. -/
theorem C4_no_subscribers (r : Registry) (s : List Reading) (fails : Conn → Bool)
    (d : String) (h : lookupSubs r d = none) :
    handle_device_data_update r s fails d =
      { queried := false, delivered := [], failedAt := none, registry := r } := by
  simp [handle_device_data_update, h]

/-- Witness for `C4_no_subscribers` on the empty registry. -/
theorem C4_no_subscribers_witness :
    handle_device_data_update [] [] (fun _ => false) "d" =
      { queried := false, delivered := [], failedAt := none, registry := [] } :=
  C4_no_subscribers [] [] (fun _ => false) "d" rfl

/-- C5 counterexample: the store holds a reading only for device "other" and none for
"d", yet the change callback for "d" is not a no-op — it sends a message (with an
empty data list) to subscriber 9. -/
theorem C5_counterexample :
    (handle_device_data_update [("d", [9])] [⟨"other", 3, []⟩] (fun _ => false)
        "d").delivered = [(9, { device_id := "d", data := [] })] := by
  decide

/-- C5 amended: when the store holds no reading for the device, `on_change` still
sends a message to every subscriber, carrying an empty `data` list; it degenerates to
a no-op only when nobody is subscribed. -/
theorem C5_empty_store (r : Registry) (s : List Reading) (d : String) (subs : List Conn)
    (h : lookupSubs r d = some subs) (hs : deviceRows d s = []) :
    (handle_device_data_update r s (fun _ => false) d).delivered =
      subs.map (fun c => (c, { device_id := d, data := [] })) := by
  have hl : fetch_latest_device_data d s = [] := by
    simp [fetch_latest_device_data, hs, sortDesc]
  simp [handle_device_data_update, h, hl, sendLoop_all_ok, mkMsg]

/-- Witness for `C5_empty_store` with one subscriber and an empty store. -/
theorem C5_empty_store_witness :
    (handle_device_data_update [("d", [9])] [] (fun _ => false) "d").delivered =
      [(9, { device_id := "d", data := [] })] := by
  have hh := C5_empty_store [("d", [9])] [] "d" [9] rfl rfl
  rw [hh]
  decide

/-- C6 counterexample: the disconnect/unregister path is not total — with the device
entry absent it raises `KeyError`, and with the connection absent from the device's
list it raises `ValueError`, instead of being a no-op. -/
theorem C6_counterexample :
    websocket_cleanup .disconnected [] "dev" 3 = .error .keyError ∧
    websocket_cleanup .disconnected [("dev", [4])] "dev" 3 = .error .valueError :=
  ⟨rfl, rfl⟩

/-- C6 amended: the unregister path succeeds exactly when the device entry exists and
contains the connection; otherwise it raises — `KeyError` for a missing device entry,
`ValueError` for a missing connection.  (`register` and the registry lookup are total
functions.) -/
theorem C6_unregister_raises (r : Registry) (d : String) (c : Conn) :
    ((∃ r2, websocket_cleanup .disconnected r d c = .ok r2) ↔
      ∃ l, lookupSubs r d = some l ∧ c ∈ l) ∧
    (lookupSubs r d = none →
      websocket_cleanup .disconnected r d c = .error .keyError) ∧
    (∀ l, lookupSubs r d = some l → c ∉ l →
      websocket_cleanup .disconnected r d c = .error .valueError) := by
  refine ⟨⟨?_, ?_⟩, websocket_cleanup_disc_none r d c, ?_⟩
  · rintro ⟨r2, h2⟩
    cases hl : lookupSubs r d with
    | none => rw [websocket_cleanup_disc_none r d c hl] at h2; exact absurd h2 (by simp)
    | some l =>
      refine ⟨l, rfl, ?_⟩
      by_contra hc
      rw [websocket_cleanup_disc_some r d c l hl, removeFirst_not_mem l c hc] at h2
      exact absurd h2 (by simp)
  · rintro ⟨l, hl, hc⟩
    rcases (removeFirst_isOk_iff l c).mpr hc with ⟨l2, hr⟩
    by_cases hn : l2 = []
    · exact ⟨delDevice r d, by simp [websocket_cleanup_disc_some r d c l hl, hr, hn]⟩
    · exact ⟨setSubs r d l2, by simp [websocket_cleanup_disc_some r d c l hl, hr, hn]⟩
  · intro l hl hc
    rw [websocket_cleanup_disc_some r d c l hl, removeFirst_not_mem l c hc]

/-- Witness for `C6_unregister_raises`: connection 2 was never registered under "a". -/
theorem C6_unregister_raises_witness :
    websocket_cleanup .disconnected [("a", [1])] "a" 2 = .error .valueError :=
  (C6_unregister_raises [("a", [1])] "a" 2).2.2 [1] rfl (by decide)

/-- C7 counterexample: the endpoint registers the connection (line 68) before fetching
and sending the snapshot (lines 72-82), and the notification listener runs as its own
task, so the scheduler may interleave a live update first.  Concretely: connection 0
registers for "d" (the store already holds rows c7r0 and c7r1); a change notification
for "d" is handled while the endpoint awaits its database connection; the snapshot is
then fetched and sent.  In the reached state the first message delivered to
connection 0 is the live update, not the snapshot. -/
theorem C7_counterexample :
    Reaches c7init c7final ∧
    c7final.inbox 0 = [mkMsg "d" [c7r1], snapshotMessage "d" [c7r0, c7r1]] ∧
    (c7final.inbox 0).head? ≠ some (snapshotMessage "d" [c7r0, c7r1]) :=
  ⟨c7_trace, by decide, by decide⟩

/-- C7 amended: a live update can reach a connection before its snapshot (the
exhibited schedule), so snapshot-first ordering does not hold; what does hold is the
timestamp bound — since the store only grows between the snapshot query and any later
latest-row query, every live update carries a recorded timestamp greater than or
equal to every timestamp in the snapshot. -/
theorem C7_snapshot_ordering (s s2 : List Reading) (d : String)
    (hsub : List.Sublist s s2) :
    (Reaches c7init c7final ∧ (c7final.inbox 0).head? = some (mkMsg "d" [c7r1])) ∧
    ∀ y ∈ fetch_latest_device_data d s2, ∀ x ∈ fetch_device_data d s,
      x.recorded_at ≤ y.recorded_at :=
  ⟨⟨c7_trace, by decide⟩, latest_ts_ge_snapshot s s2 d hsub⟩

/-- Witness for `C7_snapshot_ordering`: the one-row store grows by a newer row. -/
theorem C7_snapshot_ordering_witness :
    c7r1 ∈ fetch_latest_device_data "d" [c7r0, c7r1] ∧
    c7r0 ∈ fetch_device_data "d" [c7r0] ∧
    c7r0.recorded_at ≤ c7r1.recorded_at := by
  refine ⟨by decide, by decide, ?_⟩
  exact (C7_snapshot_ordering [c7r0] [c7r0, c7r1] "d"
      (List.Sublist.cons₂ c7r0 (List.Sublist.cons c7r1 List.Sublist.slnil))).2
    c7r1 (by decide) c7r0 (by decide)

/-- C8 counterexample: the fan-out iterates `subscriptions[device_id]` itself — no
copy is taken.  With subscribers [0, 1], if connection 0 disconnects during the
awaited send to it, its cleanup removes it from the very list being iterated, the
iterator index moves past the shifted element, and subscriber 1 — registered the
whole time — is skipped. -/
theorem C8_counterexample :
    liveListFanout 2 [0, 1] (fun c => c == 0) 0 = [0] ∧
    (1 : Conn) ∉ liveListFanout 2 [0, 1] (fun c => c == 0) 0 :=
  ⟨by decide, by decide⟩

/-- C8 amended: the fan-out iterates the live mutable list, not a snapshot; the
iteration is undisturbed only when no concurrent removal happens during the loop, in
which case every subscriber is visited once, in order. -/
theorem C8_live_iteration (l : List Conn) :
    liveListFanout l.length l (fun _ => false) 0 = l := by
  simpa using liveListFanout_no_leave l.length l 0 (by omega)

/-- C9: every message sent to an observer — initial snapshot and live update alike —
carries timestamps only as ISO-8601 text: both send sites run the isoformat
conversion loop first, so no value of any sent entry is an internal datetime. -/
theorem C9_iso_timestamps (r : Registry) (s : List Reading) (fails : Conn → Bool)
    (d : String) :
    (∀ p ∈ (handle_device_data_update r s fails d).delivered,
      ∀ e ∈ p.2.data, ∀ kv ∈ e, ∀ t, kv.2 ≠ PyVal.dt t) ∧
    (∀ e ∈ (snapshotMessage d s).data, ∀ kv ∈ e, ∀ t, kv.2 ≠ PyVal.dt t) := by
  constructor
  · intro p hp e he kv hkv t
    cases hl : lookupSubs r d with
    | none => simp [handle_device_data_update, hl] at hp
    | some subs =>
      have hp2 : p ∈ (sendLoop subs fails (mkMsg d (fetch_latest_device_data d s))).1 := by
        simpa [handle_device_data_update, hl] using hp
      have hm := sendLoop_msg_mem subs fails _ p hp2
      rw [hm] at he
      exact mkMsg_no_dt d _ e he kv hkv t
  · intro e he kv hkv t
    exact mkMsg_no_dt d (fetch_device_data d s) e he kv hkv t

/-- Witness for `C9_iso_timestamps`: the timestamp of the delivered reading arrives
as text, not as a datetime. -/
theorem C9_iso_timestamps_witness :
    (("recorded_at", PyVal.txt (isoformat 5)) : String × PyVal).2 ≠ PyVal.dt 5 :=
  (C9_iso_timestamps [("dev", [2])] [⟨"dev", 5, []⟩] (fun _ => false) "dev").1
    (2, mkMsg "dev" [⟨"dev", 5, []⟩]) (by decide)
    (convertEntry (Reading.toEntry ⟨"dev", 5, []⟩)) (by decide)
    ("recorded_at", PyVal.txt (isoformat 5)) (by decide) 5

/-- C10 counterexample: within one change event not every subscriber is sent the
message — subscriber 8 is sent nothing because the send to subscriber 5, earlier in
the list, fails and aborts the loop. -/
theorem C10_counterexample :
    (handle_device_data_update [("d", [5, 8])] [⟨"d", 2, []⟩] (fun c => c == 5)
        "d").delivered.map Prod.fst = [] :=
  by decide

/-- C10 amended: snapshot and live-update messages share the one wire shape (device
id plus a `data` list of serialized readings); a live update's list has at most one
element, the snapshot's at most 800 in non-increasing timestamp order, and every
subscriber that is delivered to within one event receives the identical message —
which is every subscriber exactly when no send fails. -/
theorem C10_wire_shape (r : Registry) (s : List Reading) (d : String) (subs : List Conn)
    (h : lookupSubs r d = some subs) :
    (fetch_latest_device_data d s).length ≤ 1 ∧
    (fetch_device_data d s).length ≤ 800 ∧
    List.Pairwise tsGE (fetch_device_data d s) ∧
    (∀ fails, ∀ p ∈ (handle_device_data_update r s fails d).delivered,
      p.2 = mkMsg d (fetch_latest_device_data d s)) ∧
    (handle_device_data_update r s (fun _ => false) d).delivered =
      subs.map (fun c => (c, mkMsg d (fetch_latest_device_data d s))) := by
  refine ⟨?_, ?_, ?_, ?_, ?_⟩
  · unfold fetch_latest_device_data
    cases (sortDesc (deviceRows d s)).head? <;> simp
  · exact List.length_take_le 800 _
  · exact List.Pairwise.sublist (List.take_sublist 800 _)
      (List.sorted_insertionSort tsGE (deviceRows d s))
  · intro fails p hp
    have hp2 : p ∈ (sendLoop subs fails (mkMsg d (fetch_latest_device_data d s))).1 := by
      simpa [handle_device_data_update, h] using hp
    exact sendLoop_msg_mem subs fails _ p hp2
  · simp [handle_device_data_update, h, sendLoop_all_ok]

/-- Witness for `C10_wire_shape` with two subscribers and a one-row store. -/
theorem C10_wire_shape_witness :
    (handle_device_data_update [("d", [5, 8])] [⟨"d", 2, []⟩] (fun _ => false)
        "d").delivered =
      [5, 8].map (fun c => (c, mkMsg "d" (fetch_latest_device_data "d" [⟨"d", 2, []⟩]))) :=
  (C10_wire_shape [("d", [5, 8])] [⟨"d", 2, []⟩] "d" [5, 8] rfl).2.2.2.2

end Spark
